import Mathlib

/-!
Shallow embedding of the travel-itinerary assembly engine
(`travel_itinerary/assemble/timeline.py`, `dedup.py`, `gap_detector.py`,
`config.py`, and the data model of `models.py`).

Conventions of the embedding:
* Python `datetime.date` values become `Int` day ordinals
  (`date.toordinal()`); `timedelta(days=1)` is `+ 1` and
  `(a - b).days` is `a - b`.  `date.max` is ordinal 3652059.
* Python floats carrying the exact decimal weights 0.4 … 1.0 become `ℚ`;
  on these values every comparison and every `round(x, 2)` agrees with
  the float program.
* Python in-place mutation of dataclasses becomes functional record
  update; each mutating statement is translated in sequence.
* `raw_extraction` (an audit dict never read by the assembly code) is
  modelled as an association list.
-/

/-- Python substring check `pat in s`. -/
def strContains (s pat : String) : Bool :=
  s.toList.tails.any (fun t => pat.toList.isPrefixOf t)

/-- Rational addition, written out through `mkRat` so that concrete runs
of the program reduce inside the kernel (the library's `Rat.add` is
irreducible). -/
def ratAdd (a b : ℚ) : ℚ :=
  mkRat (a.num * b.den + b.num * a.den) (a.den * b.den)

/-- Rational multiplication through `mkRat`, for the same reason as
`ratAdd`. -/
def ratMul (a b : ℚ) : ℚ :=
  mkRat (a.num * b.num) (a.den * b.den)

/-- Python `min` on two rationals. -/
def ratMin (a b : ℚ) : ℚ :=
  if a ≤ b then a else b

/-- Python `round(q, 2)` on the exact rationals of this program:
`⌊q·100 + 1/2⌋ / 100`.  Ties (where float round-half-to-even could
differ) are never hit by the confidence scores, which are all multiples
of 1/10. -/
def round2 (q : ℚ) : ℚ :=
  let s := ratAdd (ratMul q (mkRat 100 1)) (mkRat 1 2)
  Rat.divInt (Int.fdiv s.num s.den) 100

/-- Python `str.lower`, on the ASCII city names this program handles. -/
def strLower (s : String) : String :=
  String.mk (s.data.map Char.toLower)

/-- `models.EventType`. -/
inductive EventType where
  | FLIGHT
  | HOTEL
  | RAIL
  | BUS_FERRY
  | CAR_RENTAL
  | TOUR
deriving DecidableEq

/-- The `str` value backing each `EventType` member. -/
def EventType.value : EventType → String
  | .FLIGHT => "flight"
  | .HOTEL => "hotel"
  | .RAIL => "rail"
  | .BUS_FERRY => "bus_ferry"
  | .CAR_RENTAL => "car_rental"
  | .TOUR => "tour"

/-- `models.SignalType`. -/
inductive SignalType where
  | ENTER
  | EXIT
  | PRESENT
deriving DecidableEq

/-- `models.Location`. -/
structure Location where
  city : String
  raw : String := ""
  iata : String := ""
  country : String := ""
deriving DecidableEq

/-- `models.FlightLeg`. -/
structure FlightLeg where
  origin : Location
  destination : Location
  departure_date : Option Int := none
  arrival_date : Option Int := none
  flight_number : String := ""
  carrier : String := ""
deriving DecidableEq

/-- `models.TravelEvent`. -/
structure TravelEvent where
  event_type : EventType
  start_date : Option Int := none
  end_date : Option Int := none
  origin : Option Location := none
  destination : Option Location := none
  confirmation_number : String := ""
  provider : String := ""
  property_name : String := ""
  activity_name : String := ""
  traveler_name : String := ""
  legs : List FlightLeg := []
  source_email_id : String := ""
  source_subject : String := ""
  extraction_confidence : ℚ := 0
  raw_extraction : List (String × String) := []
deriving DecidableEq

/-- `models.CitySignal`. -/
structure CitySignal where
  signal_type : SignalType
  city : String
  dt : Int
  strength : ℚ := 1
  source_event : Option TravelEvent := none
  method : String := ""
deriving DecidableEq

/-- `models.Accommodation`. -/
structure Accommodation where
  name : String
  provider : String := ""
  check_in : Option Int := none
  check_out : Option Int := none
  confirmation : String := ""
deriving DecidableEq

/-- `models.Activity`. -/
structure Activity where
  name : String
  provider : String := ""
  dt : Option Int := none
  confirmation : String := ""
deriving DecidableEq

/-- `models.CityVisit`. -/
structure CityVisit where
  city : String
  enter_date : Option Int := none
  exit_date : Option Int := none
  enter_method : String := "inferred"
  exit_method : String := "inferred"
  accommodations : List Accommodation := []
  activities : List Activity := []
  confidence : ℚ := 0
  supporting_events : List TravelEvent := []
  notes : List String := []
deriving DecidableEq

/-- `models.Gap`. -/
structure Gap where
  last_known_city : String
  last_known_date : Option Int := none
  next_known_city : String := ""
  next_known_date : Option Int := none
  duration_days : Int := 0
  note : String := ""
deriving DecidableEq

/-! ## Step 1: signal generation (`timeline.py` lines 21–198) -/

/-- `timeline._signals_from_flight`: the per-leg loop of the `if ev.legs`
branch, one leg at a time. -/
def flightLegSignals (ev : TravelEvent) (leg : FlightLeg) : List CitySignal :=
  let dep_date := leg.departure_date.orElse (fun _ => ev.start_date)
  let arr_date := (leg.arrival_date.orElse (fun _ => leg.departure_date)).orElse
    (fun _ => ev.start_date)
  (if leg.origin.city ≠ "" then
    match dep_date with
    | some d => [{ signal_type := .EXIT, city := leg.origin.city, dt := d,
                   strength := 1, source_event := some ev,
                   method := "flight_departure" }]
    | none => []
  else []) ++
  (if leg.destination.city ≠ "" then
    match arr_date with
    | some d => [{ signal_type := .ENTER, city := leg.destination.city, dt := d,
                   strength := 1, source_event := some ev,
                   method := "flight_arrival" }]
    | none => []
  else [])

/-- `timeline._signals_from_flight`. -/
def signalsFromFlight (ev : TravelEvent) : List CitySignal :=
  if ev.legs ≠ [] then
    ev.legs.flatMap (flightLegSignals ev)
  else
    (match ev.origin, ev.start_date with
     | some o, some d =>
       if o.city ≠ "" then
         [{ signal_type := .EXIT, city := o.city, dt := d, strength := 1,
            source_event := some ev, method := "flight_departure" }]
       else []
     | _, _ => []) ++
    (match ev.destination with
     | some dst =>
       if dst.city ≠ "" then
         match ev.end_date.orElse (fun _ => ev.start_date) with
         | some d => [{ signal_type := .ENTER, city := dst.city, dt := d,
                        strength := 1, source_event := some ev,
                        method := "flight_arrival" }]
         | none => []
       else []
     | none => [])

/-- `timeline._signals_from_hotel`.  The `while d < ev.end_date` loop that
emits one PRESENT per night is denoted by a `List.range` map over the
dates `start, start+1, …, end-1` (empty when `start ≥ end`, exactly as
the loop). -/
def signalsFromHotel (ev : TravelEvent) : List CitySignal :=
  let city := match ev.destination with
    | some dst => dst.city
    | none => ""
  if city = "" then []
  else
    (match ev.start_date with
     | some d => [{ signal_type := .ENTER, city := city, dt := d,
                    strength := mkRat 8 10, source_event := some ev,
                    method := "hotel_checkin" }]
     | none => []) ++
    (match ev.end_date with
     | some d => [{ signal_type := .EXIT, city := city, dt := d,
                    strength := mkRat 8 10, source_event := some ev,
                    method := "hotel_checkout" }]
     | none => []) ++
    (match ev.start_date, ev.end_date with
     | some s, some e =>
       (List.range (e - s).toNat).map (fun i : Nat =>
         { signal_type := .PRESENT, city := city, dt := s + (i : Int),
           strength := mkRat 9 10, source_event := some ev,
           method := "hotel_stay" })
     | some s, none =>
       [{ signal_type := .PRESENT, city := city, dt := s,
          strength := mkRat 9 10, source_event := some ev,
          method := "hotel_stay" }]
     | none, _ => [])

/-- `timeline._signals_from_rail_bus`. -/
def signalsFromRailBus (ev : TravelEvent) : List CitySignal :=
  (match ev.origin, ev.start_date with
   | some o, some d =>
     if o.city ≠ "" then
       [{ signal_type := .EXIT, city := o.city, dt := d, strength := 1,
          source_event := some ev,
          method := ev.event_type.value ++ "_departure" }]
     else []
   | _, _ => []) ++
  (match ev.destination with
   | some dst =>
     if dst.city ≠ "" then
       match ev.end_date.orElse (fun _ => ev.start_date) with
       | some d => [{ signal_type := .ENTER, city := dst.city, dt := d,
                      strength := 1, source_event := some ev,
                      method := ev.event_type.value ++ "_arrival" }]
       | none => []
     else []
   | none => [])

/-- `timeline._signals_from_car_rental`. -/
def signalsFromCarRental (ev : TravelEvent) : List CitySignal :=
  (match ev.origin, ev.start_date with
   | some o, some d =>
     if o.city ≠ "" then
       [{ signal_type := .PRESENT, city := o.city, dt := d, strength := mkRat 5 10,
          source_event := some ev, method := "car_rental_pickup" }]
     else []
   | _, _ => []) ++
  (match ev.destination, ev.end_date with
   | some dst, some d =>
     if dst.city ≠ "" then
       [{ signal_type := .PRESENT, city := dst.city, dt := d, strength := mkRat 5 10,
          source_event := some ev, method := "car_rental_return" }]
     else []
   | _, _ => [])

/-- `timeline._signals_from_tour`. -/
def signalsFromTour (ev : TravelEvent) : List CitySignal :=
  let city := match ev.destination with
    | some dst => dst.city
    | none => ""
  match ev.start_date with
  | some d =>
    if city ≠ "" then
      [{ signal_type := .PRESENT, city := city, dt := d, strength := mkRat 7 10,
         source_event := some ev, method := "tour_activity" }]
    else []
  | none => []

/-- The `if/elif` dispatch inside `timeline.events_to_signals`. -/
def signalsForEvent (ev : TravelEvent) : List CitySignal :=
  match ev.event_type with
  | .FLIGHT => signalsFromFlight ev
  | .HOTEL => signalsFromHotel ev
  | .RAIL => signalsFromRailBus ev
  | .BUS_FERRY => signalsFromRailBus ev
  | .CAR_RENTAL => signalsFromCarRental ev
  | .TOUR => signalsFromTour ev

/-- `timeline.events_to_signals`: the accumulating `for` loop. -/
def eventsToSignals (events : List TravelEvent) : List CitySignal :=
  events.foldl (fun signals ev => signals ++ signalsForEvent ev) []

/-! ## Step 2: signal sorting (`timeline.py` lines 205–209) -/

/-- `timeline._SIGNAL_ORDER`. -/
def signalOrder : SignalType → Nat
  | .EXIT => 0
  | .PRESENT => 1
  | .ENTER => 2

/-- The lexicographic comparison on the Python sort key
`(s.dt, _SIGNAL_ORDER[s.signal_type])`. -/
def sigLE (a b : CitySignal) : Prop :=
  a.dt < b.dt ∨ (a.dt = b.dt ∧ signalOrder a.signal_type ≤ signalOrder b.signal_type)

instance : DecidableRel sigLE := fun a b => by
  unfold sigLE; infer_instance

/-- `timeline.sort_signals`: Python `sorted` is the stable sort by the
key `(dt, _SIGNAL_ORDER[signal_type])`; `List.insertionSort` computes
the same (unique) stable sort. -/
def sortSignals (signals : List CitySignal) : List CitySignal :=
  signals.insertionSort sigLE

/-! ## Step 3: the visit assembler (`timeline.py` lines 216–348) -/

/-- `timeline._collect_accommodations`. -/
def collectAccommodations (events : List TravelEvent) : List Accommodation :=
  events.foldl (fun accs ev =>
    if ev.event_type = .HOTEL ∧ (ev.property_name ≠ "" ∨ ev.provider ≠ "") then
      accs ++ [{ name := if ev.property_name ≠ "" then ev.property_name
                   else if ev.provider ≠ "" then ev.provider
                   else "Unknown hotel",
                 provider := ev.provider,
                 check_in := ev.start_date,
                 check_out := ev.end_date,
                 confirmation := ev.confirmation_number }]
    else accs) []

/-- `timeline._collect_activities`. -/
def collectActivities (events : List TravelEvent) : List Activity :=
  events.foldl (fun acts ev =>
    if ev.event_type = .TOUR ∧ ev.activity_name ≠ "" then
      acts ++ [{ name := ev.activity_name,
                 provider := ev.provider,
                 dt := ev.start_date,
                 confirmation := ev.confirmation_number }]
    else acts) []

/-- `timeline._score_confidence`. -/
def scoreConfidence (visit : CityVisit) : ℚ :=
  let hasExplicitEnter : Bool :=
    visit.enter_method != "" && !(strContains visit.enter_method "inferred")
  let hasExplicitExit : Bool :=
    visit.exit_method != "" && !(strContains visit.exit_method "inferred")
  let score : ℚ :=
    if hasExplicitEnter && hasExplicitExit then 1
    else if hasExplicitEnter || hasExplicitExit then mkRat 7 10
    else mkRat 4 10
  let score := if visit.accommodations ≠ [] then ratMin 1 (ratAdd score (mkRat 1 10)) else score
  let score := if 3 ≤ visit.supporting_events.length then ratMin 1 (ratAdd score (mkRat 1 10)) else score
  round2 score

/-- The loop state of `timeline.assemble_visits`: the output list built so
far and the currently open visit (`None` = no open visit). -/
structure AsmState where
  visits : List CityVisit
  current : Option CityVisit
deriving DecidableEq

/-- One iteration of the `for sig in signals` loop of
`timeline.assemble_visits` (lines 252–334). -/
def assembleStep (st : AsmState) (sig : CitySignal) : AsmState :=
  match sig.signal_type with
  | .ENTER =>
    let visits :=
      match st.current with
      | some current =>
        let closed :=
          if current.exit_date = none then
            { current with
              exit_date := some sig.dt,
              exit_method := "inferred_from_next_arrival",
              notes := current.notes ++ ["Exit inferred from arrival in " ++ sig.city] }
          else current
        st.visits ++ [closed]
      | none => st.visits
    let fresh : CityVisit :=
      { city := sig.city, enter_date := some sig.dt, enter_method := sig.method }
    let fresh :=
      match sig.source_event with
      | some ev => { fresh with supporting_events := fresh.supporting_events ++ [ev] }
      | none => fresh
    { visits := visits, current := some fresh }
  | .EXIT =>
    match st.current with
    | some current =>
      if strLower current.city = strLower sig.city then
        let closed := { current with exit_date := some sig.dt, exit_method := sig.method }
        let closed :=
          match sig.source_event with
          | some ev => { closed with supporting_events := closed.supporting_events ++ [ev] }
          | none => closed
        { visits := st.visits ++ [closed], current := none }
      else
        let closed :=
          if current.exit_date = none then
            { current with
              exit_date := some sig.dt,
              exit_method := "inferred_unknown",
              notes := current.notes ++ ["Closed: EXIT signal from " ++ sig.city] }
          else current
        { visits := st.visits ++ [closed], current := none }
    | none =>
      let dep : CityVisit :=
        { city := sig.city, enter_date := none, enter_method := "inferred",
          exit_date := some sig.dt, exit_method := sig.method,
          notes := ["Departure only — no arrival evidence"] }
      let dep :=
        match sig.source_event with
        | some ev => { dep with supporting_events := dep.supporting_events ++ [ev] }
        | none => dep
      { visits := st.visits ++ [dep], current := none }
  | .PRESENT =>
    match st.current with
    | some current =>
      if strLower current.city = strLower sig.city then
        let updated :=
          match sig.source_event with
          | some ev =>
            if ev ∈ current.supporting_events then current
            else { current with supporting_events := current.supporting_events ++ [ev] }
          | none => current
        { visits := st.visits, current := some updated }
      else
        if mkRat 7 10 ≤ sig.strength then
          let closed :=
            if current.exit_date = none then
              { current with
                exit_date := some sig.dt,
                exit_method := "inferred_from_presence_elsewhere",
                notes := current.notes ++ ["Exit inferred from presence in " ++ sig.city] }
            else current
          let fresh : CityVisit :=
            { city := sig.city, enter_date := some sig.dt, enter_method := sig.method }
          let fresh :=
            match sig.source_event with
            | some ev => { fresh with supporting_events := fresh.supporting_events ++ [ev] }
            | none => fresh
          { visits := st.visits ++ [closed], current := some fresh }
        else st
    | none =>
      let fresh : CityVisit :=
        { city := sig.city, enter_date := some sig.dt, enter_method := sig.method,
          notes := ["Started from PRESENT signal only"] }
      let fresh :=
        match sig.source_event with
        | some ev => { fresh with supporting_events := fresh.supporting_events ++ [ev] }
        | none => fresh
      { visits := st.visits, current := some fresh }

/-- The terminal action of `timeline.assemble_visits` (lines 337–340): the
still-open visit gets a note when it has no exit evidence. -/
def closeFinal (c : CityVisit) : CityVisit :=
  if c.exit_date = none then
    { c with notes := c.notes ++ ["No exit evidence — visit may still be ongoing or exit unknown"] }
  else c

/-- The post-pass of `timeline.assemble_visits` (lines 343–346) on one
visit: attach accommodations and activities, then score confidence on the
updated visit. -/
def postVisit (v : CityVisit) : CityVisit :=
  let v := { v with accommodations := collectAccommodations v.supporting_events }
  let v := { v with activities := collectActivities v.supporting_events }
  { v with confidence := scoreConfidence v }

/-- `timeline.assemble_visits`. -/
def assembleVisits (signals : List CitySignal) : List CityVisit :=
  if signals = [] then []
  else
    let sorted := sortSignals signals
    let st := sorted.foldl assembleStep { visits := [], current := none }
    let visits :=
      match st.current with
      | some c => st.visits ++ [closeFinal c]
      | none => st.visits
    visits.map postVisit

/-! ## The merger (`timeline.py` lines 374–455) -/

/-- Python `str(x)` on an optional date, as used in the fallback
accommodation-dedup key `f"{a.name}|{a.check_in}|{a.check_out}"`; day
ordinals are rendered instead of ISO dates, an injective change of
notation for dates. -/
def showOptDate : Option Int → String
  | none => "None"
  | some d => toString d

/-- `timeline._dedup_accommodations`: `seen` is the list of keys already
kept, `unique` the output. -/
def dedupAccommodations (accs : List Accommodation) : List Accommodation :=
  (accs.foldl (fun (p : List String × List Accommodation) a =>
    let key := if a.confirmation ≠ "" then a.confirmation
      else a.name ++ "|" ++ showOptDate a.check_in ++ "|" ++ showOptDate a.check_out
    if key ∈ p.1 then p else (p.1 ++ [key], p.2 ++ [a])) ([], [])).2

/-- The merge condition of `timeline.merge_consecutive_visits`
(lines 399–408). -/
def shouldMerge (current nxt : CityVisit) : Bool :=
  let same_city := strLower current.city == strLower nxt.city
  let curr_end := current.exit_date.orElse (fun _ => current.enter_date)
  let nxt_start := nxt.enter_date.orElse (fun _ => nxt.exit_date)
  let gap_ok : Bool :=
    match curr_end, nxt_start with
    | some ce, some ns => decide (ns - ce ≤ 1)
    | _, _ => true
  same_city && gap_ok

/-- The merge body of `timeline.merge_consecutive_visits` (lines 410–430),
statement by statement. -/
def mergeInto (current nxt : CityVisit) : CityVisit :=
  let c1 :=
    match nxt.enter_date, current.enter_date with
    | some ne, none =>
      { current with enter_date := some ne, enter_method := nxt.enter_method }
    | some ne, some ce =>
      if ne < ce then
        { current with enter_date := some ne, enter_method := nxt.enter_method }
      else current
    | none, _ => current
  let c2 :=
    match nxt.exit_date, c1.exit_date with
    | some nx, none =>
      { c1 with exit_date := some nx, exit_method := nxt.exit_method }
    | some nx, some cx =>
      if cx < nx then
        { c1 with exit_date := some nx, exit_method := nxt.exit_method }
      else c1
    | none, _ => c1
  let c3 :=
    if strContains c2.enter_method "inferred" && !(strContains nxt.enter_method "inferred") then
      { c2 with enter_method := nxt.enter_method }
    else c2
  let c4 :=
    if strContains c3.exit_method "inferred" && !(strContains nxt.exit_method "inferred") then
      { c3 with exit_method := nxt.exit_method }
    else c3
  let newSupport := nxt.supporting_events.foldl
    (fun l ev => if ev ∈ l then l else l ++ [ev]) c4.supporting_events
  let c5 := { c4 with supporting_events := newSupport }
  { c5 with
    accommodations := c5.accommodations ++ nxt.accommodations,
    activities := c5.activities ++ nxt.activities }

/-- Finalization of a merged run in `timeline.merge_consecutive_visits`
(lines 434–437 and 442–444): dedup accommodations, rescore confidence on
the updated visit, strip "Started from PRESENT" notes. -/
def finalizeVisit (v : CityVisit) : CityVisit :=
  let v := { v with accommodations := dedupAccommodations v.accommodations }
  let v := { v with confidence := scoreConfidence v }
  { v with notes := v.notes.filter (fun n => !(strContains n "Started from PRESENT")) }

/-- The `for nxt in visits[1:]` loop of `timeline.merge_consecutive_visits`
with running visit `current`, including the final-visit finalization. -/
def mergeAux (current : CityVisit) : List CityVisit → List CityVisit
  | [] => [finalizeVisit current]
  | nxt :: rest =>
    if shouldMerge current nxt then mergeAux (mergeInto current nxt) rest
    else finalizeVisit current :: mergeAux nxt rest

/-- `timeline.merge_consecutive_visits`. -/
def mergeConsecutiveVisits : List CityVisit → List CityVisit
  | [] => []
  | v :: rest => mergeAux v rest

/-- `timeline.build_timeline`. -/
def buildTimeline (events : List TravelEvent) : List CityVisit :=
  mergeConsecutiveVisits (assembleVisits (eventsToSignals events))

/-! ## The deduplicator's field merge (`dedup.py` lines 35–59) -/

/-- `dedup._merge_pair`, line 37: copy `start_date` when unset. -/
def mergeStartDate (p : TravelEvent) (secondary : TravelEvent) : TravelEvent :=
  match p.start_date, secondary.start_date with
  | none, some d => { p with start_date := some d }
  | _, _ => p

/-- `dedup._merge_pair`, line 39: copy `end_date` when unset. -/
def mergeEndDate (p : TravelEvent) (secondary : TravelEvent) : TravelEvent :=
  match p.end_date, secondary.end_date with
  | none, some d => { p with end_date := some d }
  | _, _ => p

/-- `dedup._merge_pair`, lines 41–44: the `origin` if/elif. -/
def mergeOrigin (p : TravelEvent) (secondary : TravelEvent) : TravelEvent :=
  match p.origin, secondary.origin with
  | none, some o => { p with origin := some o }
  | some po, some so =>
    if po.city = "" ∧ so.city ≠ "" then { p with origin := some so } else p
  | _, _ => p

/-- `dedup._merge_pair`, lines 45–48: the `destination` if/elif. -/
def mergeDestination (p : TravelEvent) (secondary : TravelEvent) : TravelEvent :=
  match p.destination, secondary.destination with
  | none, some o => { p with destination := some o }
  | some pd, some sd =>
    if pd.city = "" ∧ sd.city ≠ "" then { p with destination := some sd } else p
  | _, _ => p

/-- `dedup._merge_pair`, line 49: copy `confirmation_number` when empty. -/
def mergeConfirmation (p : TravelEvent) (secondary : TravelEvent) : TravelEvent :=
  if p.confirmation_number = "" ∧ secondary.confirmation_number ≠ "" then
    { p with confirmation_number := secondary.confirmation_number }
  else p

/-- `dedup._merge_pair`, line 51: copy `provider` when empty. -/
def mergeProvider (p : TravelEvent) (secondary : TravelEvent) : TravelEvent :=
  if p.provider = "" ∧ secondary.provider ≠ "" then
    { p with provider := secondary.provider }
  else p

/-- `dedup._merge_pair`, line 53: copy `property_name` when empty. -/
def mergePropertyName (p : TravelEvent) (secondary : TravelEvent) : TravelEvent :=
  if p.property_name = "" ∧ secondary.property_name ≠ "" then
    { p with property_name := secondary.property_name }
  else p

/-- `dedup._merge_pair`, line 55: copy `activity_name` when empty. -/
def mergeActivityName (p : TravelEvent) (secondary : TravelEvent) : TravelEvent :=
  if p.activity_name = "" ∧ secondary.activity_name ≠ "" then
    { p with activity_name := secondary.activity_name }
  else p

/-- `dedup._merge_pair`, line 57: copy `legs` when empty. -/
def mergeLegs (p : TravelEvent) (secondary : TravelEvent) : TravelEvent :=
  if p.legs = [] ∧ secondary.legs ≠ [] then
    { p with legs := secondary.legs }
  else p

/-- `dedup._merge_pair`: the statements run in source order on the
mutated primary. -/
def mergePair (primary secondary : TravelEvent) : TravelEvent :=
  mergeLegs
    (mergeActivityName
      (mergePropertyName
        (mergeProvider
          (mergeConfirmation
            (mergeDestination
              (mergeOrigin
                (mergeEndDate (mergeStartDate primary secondary) secondary)
                secondary)
              secondary)
            secondary)
          secondary)
        secondary)
      secondary)
    secondary

/-! ## The gap detector (`gap_detector.py`, `config.py`) -/

/-- `config.GAP_THRESHOLD_DAYS`. -/
def GAP_THRESHOLD_DAYS : Int := 14

/-- `config.HOME_BASE_EUROPE`. -/
def HOME_BASE_EUROPE : String := "Barcelona"

/-- `gap_detector._EUROPEAN_CITIES`. -/
def europeanCities : List String :=
  ["Barcelona", "Madrid", "Paris", "London", "Rome", "Milan", "Berlin",
   "Amsterdam", "Brussels", "Lisbon", "Vienna", "Prague", "Budapest",
   "Zurich", "Geneva", "Copenhagen", "Stockholm", "Oslo", "Helsinki",
   "Dublin", "Edinburgh", "Athens", "Istanbul", "Warsaw", "Bordeaux",
   "Malaga", "Palma de Mallorca", "Fuerteventura", "Frankfurt",
   "Munich", "Hamburg", "Moscow", "Minsk", "St. Petersburg", "Tel Aviv"]

/-- Python `datetime.date.max.toordinal()` (9999-12-31), the sort-key
fallback for visits with no dates in `gap_detector.detect_gaps`. -/
def dateMaxOrdinal : Int := 3652059

/-- The sort key of `gap_detector.detect_gaps`:
`v.enter_date or v.exit_date or date.max`. -/
def visitSortKey (v : CityVisit) : Int :=
  match v.enter_date.orElse (fun _ => v.exit_date) with
  | some d => d
  | none => dateMaxOrdinal

/-- The comparison `gap_detector.detect_gaps` sorts by. -/
def visitLE (a b : CityVisit) : Prop :=
  visitSortKey a ≤ visitSortKey b

instance : DecidableRel visitLE := fun a b => by
  unfold visitLE; infer_instance

/-- The gap check for one consecutive pair inside the loop of
`gap_detector.detect_gaps` (lines 44–66). -/
def gapOfPair (visit next_visit : CityVisit) : List Gap :=
  let exit_date := visit.exit_date.orElse (fun _ => visit.enter_date)
  let next_enter := next_visit.enter_date.orElse (fun _ => next_visit.exit_date)
  match exit_date, next_enter with
  | some e, some n =>
    let gap_days := n - e
    if GAP_THRESHOLD_DAYS < gap_days then
      [{ last_known_city := visit.city, last_known_date := some e,
         next_known_city := next_visit.city, next_known_date := some n,
         duration_days := gap_days,
         note := if visit.city ∈ europeanCities then
             "Likely at home base (" ++ HOME_BASE_EUROPE ++ ")"
           else "No evidence for " ++ toString gap_days ++ " days" }]
    else []
  | _, _ => []

/-- The pairwise pass of `gap_detector.detect_gaps` over the sorted
visits. -/
def gapsOfPairs : List CityVisit → List Gap
  | [] => []
  | [_] => []
  | a :: b :: rest => gapOfPair a b ++ gapsOfPairs (b :: rest)

/-- `gap_detector.detect_gaps`. -/
def detectGaps (visits : List CityVisit) : List CityVisit × List Gap :=
  if visits = [] then (visits, [])
  else
    let sorted := visits.insertionSort visitLE
    (sorted, gapsOfPairs sorted)

/-! ## Verified properties -/

instance : IsTotal CitySignal sigLE :=
  ⟨fun a b => by unfold sigLE; omega⟩

instance : IsTrans CitySignal sigLE :=
  ⟨fun a b c hab hbc => by unfold sigLE at hab hbc ⊢; omega⟩

/-- C6: `sort_signals` orders any signal list by date ascending with the
signal-type priority EXIT(0) < PRESENT(1) < ENTER(2) as tie-break, so in
the sorted output no ENTER ever precedes an EXIT of the same day. -/
theorem sortSignals_total_order (signals : List CitySignal) :
    (sortSignals signals).Perm signals ∧
    (sortSignals signals).Pairwise sigLE ∧
    (sortSignals signals).Pairwise (fun a b =>
      a.dt = b.dt → ¬ (a.signal_type = .ENTER ∧ b.signal_type = .EXIT)) := by
  refine ⟨List.perm_insertionSort _ _, List.sorted_insertionSort _ _, ?_⟩
  refine (List.sorted_insertionSort sigLE signals).imp ?_
  intro a b hab hdt hty
  rcases hty with ⟨ha, hb⟩
  unfold sigLE at hab
  rcases hab with h | ⟨-, h⟩
  · omega
  · rw [ha, hb] at h
    simp [signalOrder] at h

/-- C8: every gap reported by `detect_gaps` exceeds the configured
threshold, and its `duration_days` is exactly the day difference of its
two recorded bounding dates. -/
theorem detectGaps_duration (visits : List CityVisit) (g : Gap)
    (hg : g ∈ (detectGaps visits).2) :
    GAP_THRESHOLD_DAYS < g.duration_days ∧
    ∃ a b, g.last_known_date = some a ∧ g.next_known_date = some b ∧
      g.duration_days = b - a := by
  have hpairs : ∀ (l : List CityVisit), g ∈ gapsOfPairs l →
      GAP_THRESHOLD_DAYS < g.duration_days ∧
      ∃ a b, g.last_known_date = some a ∧ g.next_known_date = some b ∧
        g.duration_days = b - a := by
    intro l hl
    induction l with
    | nil => simp [gapsOfPairs] at hl
    | cons x rest ih =>
      match rest, hl with
      | [], hl => simp [gapsOfPairs] at hl
      | y :: rest, hl =>
        rw [gapsOfPairs, List.mem_append] at hl
        rcases hl with hl | hl
        · unfold gapOfPair at hl
          rcases hx : (x.exit_date.orElse fun _ => x.enter_date) with _ | a <;>
            rcases hy : (y.enter_date.orElse fun _ => y.exit_date) with _ | b <;>
              rw [hx, hy] at hl <;> simp at hl
          rcases hl with ⟨hth, rfl⟩
          exact ⟨hth, a, b, rfl, rfl, rfl⟩
        · exact ih hl
  unfold detectGaps at hg
  by_cases hv : visits = []
  · rw [if_pos hv] at hg
    simp at hg
  · rw [if_neg hv] at hg
    exact hpairs _ hg

/-- Two visits 20 days apart, for exercising the gap detector. -/
def gapVisits : List CityVisit :=
  [{ city := "x", enter_date := some 0, exit_date := some 10 },
   { city := "y", enter_date := some 30 }]

/-- The gap the detector reports on `gapVisits`. -/
def gapWitness : Gap :=
  ((detectGaps gapVisits).2).getD 0 { last_known_city := "" }

/-- Witness for C8 at a concrete 20-day gap. -/
theorem detectGaps_duration_witness :
    gapWitness ∈ (detectGaps gapVisits).2 ∧
    (GAP_THRESHOLD_DAYS < gapWitness.duration_days ∧
      ∃ a b, gapWitness.last_known_date = some a ∧
        gapWitness.next_known_date = some b ∧
        gapWitness.duration_days = b - a) :=
  ⟨by decide, detectGaps_duration gapVisits gapWitness (by decide)⟩

/-- C9: signal generation is total: it is the flat concatenation of each
event's signals, an event with no dates and no legs contributes no
signals, and an event with no resolvable cities and no legs contributes
no signals. -/
theorem eventsToSignals_total_graceful :
    (∀ events : List TravelEvent,
      eventsToSignals events = events.flatMap signalsForEvent) ∧
    (∀ ev : TravelEvent, ev.start_date = none → ev.end_date = none →
      ev.legs = [] → signalsForEvent ev = []) ∧
    (∀ ev : TravelEvent, (∀ o ∈ ev.origin, o.city = "") →
      (∀ d ∈ ev.destination, d.city = "") → ev.legs = [] →
      signalsForEvent ev = []) := by
  refine ⟨?_, ?_, ?_⟩
  · have key : ∀ (l : List TravelEvent) (acc : List CitySignal),
        l.foldl (fun signals ev => signals ++ signalsForEvent ev) acc =
          acc ++ l.flatMap signalsForEvent := by
      intro l
      induction l with
      | nil => simp
      | cons ev rest ih => intro acc; simp [ih]
    intro events
    simpa using key events []
  · intro ev h1 h2 h3
    cases hty : ev.event_type <;>
      rcases ho : ev.origin with _ | o <;>
        rcases hd : ev.destination with _ | d <;>
          simp [signalsForEvent, signalsFromFlight, signalsFromHotel,
            signalsFromRailBus, signalsFromCarRental, signalsFromTour,
            hty, ho, hd, h1, h2, h3, Option.orElse]
  · intro ev h1 h2 h3
    cases hty : ev.event_type <;>
      rcases ho : ev.origin with _ | o <;>
        rcases hd : ev.destination with _ | d <;>
          rcases hs : ev.start_date with _ | s <;>
            rcases he : ev.end_date with _ | e <;>
              simp [signalsForEvent, signalsFromFlight, signalsFromHotel,
                signalsFromRailBus, signalsFromCarRental, signalsFromTour,
                hty, ho, hd, hs, he, h3, Option.orElse, Option.mem_def,
                h1, h2]

/-- A car-rental event with no dates, cities, or legs. -/
def bareEvent : TravelEvent := { event_type := .CAR_RENTAL }

/-- Witness for C9: the bare event contributes no signals. -/
theorem eventsToSignals_total_graceful_witness :
    signalsForEvent bareEvent = [] ∧ eventsToSignals [bareEvent] = [] :=
  ⟨eventsToSignals_total_graceful.2.1 bareEvent rfl rfl rfl, by decide⟩

/-! Projection characterizations of the deduplicator's per-field
merges: each helper computes its own field and leaves every other field
of the primary unchanged. -/

@[simp] lemma mergeStartDate_fields (p s : TravelEvent) :
    ((mergeStartDate p s).start_date = p.start_date.orElse (fun _ => s.start_date)) ∧
    ((mergeStartDate p s).event_type = p.event_type) ∧
    ((mergeStartDate p s).end_date = p.end_date) ∧
    ((mergeStartDate p s).origin = p.origin) ∧
    ((mergeStartDate p s).destination = p.destination) ∧
    ((mergeStartDate p s).confirmation_number = p.confirmation_number) ∧
    ((mergeStartDate p s).provider = p.provider) ∧
    ((mergeStartDate p s).property_name = p.property_name) ∧
    ((mergeStartDate p s).activity_name = p.activity_name) ∧
    ((mergeStartDate p s).traveler_name = p.traveler_name) ∧
    ((mergeStartDate p s).legs = p.legs) ∧
    ((mergeStartDate p s).source_email_id = p.source_email_id) ∧
    ((mergeStartDate p s).source_subject = p.source_subject) ∧
    ((mergeStartDate p s).extraction_confidence = p.extraction_confidence) ∧
    ((mergeStartDate p s).raw_extraction = p.raw_extraction) := by
  rcases hp : p.start_date <;> rcases hs : s.start_date <;>
    simp [mergeStartDate, hp, hs, Option.orElse]

@[simp] lemma mergeEndDate_fields (p s : TravelEvent) :
    ((mergeEndDate p s).end_date = p.end_date.orElse (fun _ => s.end_date)) ∧
    ((mergeEndDate p s).event_type = p.event_type) ∧
    ((mergeEndDate p s).start_date = p.start_date) ∧
    ((mergeEndDate p s).origin = p.origin) ∧
    ((mergeEndDate p s).destination = p.destination) ∧
    ((mergeEndDate p s).confirmation_number = p.confirmation_number) ∧
    ((mergeEndDate p s).provider = p.provider) ∧
    ((mergeEndDate p s).property_name = p.property_name) ∧
    ((mergeEndDate p s).activity_name = p.activity_name) ∧
    ((mergeEndDate p s).traveler_name = p.traveler_name) ∧
    ((mergeEndDate p s).legs = p.legs) ∧
    ((mergeEndDate p s).source_email_id = p.source_email_id) ∧
    ((mergeEndDate p s).source_subject = p.source_subject) ∧
    ((mergeEndDate p s).extraction_confidence = p.extraction_confidence) ∧
    ((mergeEndDate p s).raw_extraction = p.raw_extraction) := by
  rcases hp : p.end_date <;> rcases hs : s.end_date <;>
    simp [mergeEndDate, hp, hs, Option.orElse]

@[simp] lemma mergeOrigin_fields (p s : TravelEvent) :
    ((mergeOrigin p s).origin = (match p.origin, s.origin with
      | none, some o => some o
      | some po, some so =>
        if po.city = "" ∧ so.city ≠ "" then some so else some po
      | _, _ => p.origin)) ∧
    ((mergeOrigin p s).event_type = p.event_type) ∧
    ((mergeOrigin p s).start_date = p.start_date) ∧
    ((mergeOrigin p s).end_date = p.end_date) ∧
    ((mergeOrigin p s).destination = p.destination) ∧
    ((mergeOrigin p s).confirmation_number = p.confirmation_number) ∧
    ((mergeOrigin p s).provider = p.provider) ∧
    ((mergeOrigin p s).property_name = p.property_name) ∧
    ((mergeOrigin p s).activity_name = p.activity_name) ∧
    ((mergeOrigin p s).traveler_name = p.traveler_name) ∧
    ((mergeOrigin p s).legs = p.legs) ∧
    ((mergeOrigin p s).source_email_id = p.source_email_id) ∧
    ((mergeOrigin p s).source_subject = p.source_subject) ∧
    ((mergeOrigin p s).extraction_confidence = p.extraction_confidence) ∧
    ((mergeOrigin p s).raw_extraction = p.raw_extraction) := by
  rcases hp : p.origin <;> rcases hs : s.origin <;>
    simp [mergeOrigin, hp, hs] <;> split <;> simp_all

@[simp] lemma mergeDestination_fields (p s : TravelEvent) :
    ((mergeDestination p s).destination = (match p.destination, s.destination with
      | none, some o => some o
      | some pd, some sd =>
        if pd.city = "" ∧ sd.city ≠ "" then some sd else some pd
      | _, _ => p.destination)) ∧
    ((mergeDestination p s).event_type = p.event_type) ∧
    ((mergeDestination p s).start_date = p.start_date) ∧
    ((mergeDestination p s).end_date = p.end_date) ∧
    ((mergeDestination p s).origin = p.origin) ∧
    ((mergeDestination p s).confirmation_number = p.confirmation_number) ∧
    ((mergeDestination p s).provider = p.provider) ∧
    ((mergeDestination p s).property_name = p.property_name) ∧
    ((mergeDestination p s).activity_name = p.activity_name) ∧
    ((mergeDestination p s).traveler_name = p.traveler_name) ∧
    ((mergeDestination p s).legs = p.legs) ∧
    ((mergeDestination p s).source_email_id = p.source_email_id) ∧
    ((mergeDestination p s).source_subject = p.source_subject) ∧
    ((mergeDestination p s).extraction_confidence = p.extraction_confidence) ∧
    ((mergeDestination p s).raw_extraction = p.raw_extraction) := by
  rcases hp : p.destination <;> rcases hs : s.destination <;>
    simp [mergeDestination, hp, hs] <;> split <;> simp_all

@[simp] lemma mergeConfirmation_fields (p s : TravelEvent) :
    ((mergeConfirmation p s).confirmation_number = (if p.confirmation_number = "" ∧ s.confirmation_number ≠ "" then s.confirmation_number else p.confirmation_number)) ∧
    ((mergeConfirmation p s).event_type = p.event_type) ∧
    ((mergeConfirmation p s).start_date = p.start_date) ∧
    ((mergeConfirmation p s).end_date = p.end_date) ∧
    ((mergeConfirmation p s).origin = p.origin) ∧
    ((mergeConfirmation p s).destination = p.destination) ∧
    ((mergeConfirmation p s).provider = p.provider) ∧
    ((mergeConfirmation p s).property_name = p.property_name) ∧
    ((mergeConfirmation p s).activity_name = p.activity_name) ∧
    ((mergeConfirmation p s).traveler_name = p.traveler_name) ∧
    ((mergeConfirmation p s).legs = p.legs) ∧
    ((mergeConfirmation p s).source_email_id = p.source_email_id) ∧
    ((mergeConfirmation p s).source_subject = p.source_subject) ∧
    ((mergeConfirmation p s).extraction_confidence = p.extraction_confidence) ∧
    ((mergeConfirmation p s).raw_extraction = p.raw_extraction) := by
  unfold mergeConfirmation
  split <;> simp_all

@[simp] lemma mergeProvider_fields (p s : TravelEvent) :
    ((mergeProvider p s).provider = (if p.provider = "" ∧ s.provider ≠ "" then s.provider else p.provider)) ∧
    ((mergeProvider p s).event_type = p.event_type) ∧
    ((mergeProvider p s).start_date = p.start_date) ∧
    ((mergeProvider p s).end_date = p.end_date) ∧
    ((mergeProvider p s).origin = p.origin) ∧
    ((mergeProvider p s).destination = p.destination) ∧
    ((mergeProvider p s).confirmation_number = p.confirmation_number) ∧
    ((mergeProvider p s).property_name = p.property_name) ∧
    ((mergeProvider p s).activity_name = p.activity_name) ∧
    ((mergeProvider p s).traveler_name = p.traveler_name) ∧
    ((mergeProvider p s).legs = p.legs) ∧
    ((mergeProvider p s).source_email_id = p.source_email_id) ∧
    ((mergeProvider p s).source_subject = p.source_subject) ∧
    ((mergeProvider p s).extraction_confidence = p.extraction_confidence) ∧
    ((mergeProvider p s).raw_extraction = p.raw_extraction) := by
  unfold mergeProvider
  split <;> simp_all

@[simp] lemma mergePropertyName_fields (p s : TravelEvent) :
    ((mergePropertyName p s).property_name = (if p.property_name = "" ∧ s.property_name ≠ "" then s.property_name else p.property_name)) ∧
    ((mergePropertyName p s).event_type = p.event_type) ∧
    ((mergePropertyName p s).start_date = p.start_date) ∧
    ((mergePropertyName p s).end_date = p.end_date) ∧
    ((mergePropertyName p s).origin = p.origin) ∧
    ((mergePropertyName p s).destination = p.destination) ∧
    ((mergePropertyName p s).confirmation_number = p.confirmation_number) ∧
    ((mergePropertyName p s).provider = p.provider) ∧
    ((mergePropertyName p s).activity_name = p.activity_name) ∧
    ((mergePropertyName p s).traveler_name = p.traveler_name) ∧
    ((mergePropertyName p s).legs = p.legs) ∧
    ((mergePropertyName p s).source_email_id = p.source_email_id) ∧
    ((mergePropertyName p s).source_subject = p.source_subject) ∧
    ((mergePropertyName p s).extraction_confidence = p.extraction_confidence) ∧
    ((mergePropertyName p s).raw_extraction = p.raw_extraction) := by
  unfold mergePropertyName
  split <;> simp_all

@[simp] lemma mergeActivityName_fields (p s : TravelEvent) :
    ((mergeActivityName p s).activity_name = (if p.activity_name = "" ∧ s.activity_name ≠ "" then s.activity_name else p.activity_name)) ∧
    ((mergeActivityName p s).event_type = p.event_type) ∧
    ((mergeActivityName p s).start_date = p.start_date) ∧
    ((mergeActivityName p s).end_date = p.end_date) ∧
    ((mergeActivityName p s).origin = p.origin) ∧
    ((mergeActivityName p s).destination = p.destination) ∧
    ((mergeActivityName p s).confirmation_number = p.confirmation_number) ∧
    ((mergeActivityName p s).provider = p.provider) ∧
    ((mergeActivityName p s).property_name = p.property_name) ∧
    ((mergeActivityName p s).traveler_name = p.traveler_name) ∧
    ((mergeActivityName p s).legs = p.legs) ∧
    ((mergeActivityName p s).source_email_id = p.source_email_id) ∧
    ((mergeActivityName p s).source_subject = p.source_subject) ∧
    ((mergeActivityName p s).extraction_confidence = p.extraction_confidence) ∧
    ((mergeActivityName p s).raw_extraction = p.raw_extraction) := by
  unfold mergeActivityName
  split <;> simp_all

@[simp] lemma mergeLegs_fields (p s : TravelEvent) :
    ((mergeLegs p s).legs = (if p.legs = [] ∧ s.legs ≠ [] then s.legs else p.legs)) ∧
    ((mergeLegs p s).event_type = p.event_type) ∧
    ((mergeLegs p s).start_date = p.start_date) ∧
    ((mergeLegs p s).end_date = p.end_date) ∧
    ((mergeLegs p s).origin = p.origin) ∧
    ((mergeLegs p s).destination = p.destination) ∧
    ((mergeLegs p s).confirmation_number = p.confirmation_number) ∧
    ((mergeLegs p s).provider = p.provider) ∧
    ((mergeLegs p s).property_name = p.property_name) ∧
    ((mergeLegs p s).activity_name = p.activity_name) ∧
    ((mergeLegs p s).traveler_name = p.traveler_name) ∧
    ((mergeLegs p s).source_email_id = p.source_email_id) ∧
    ((mergeLegs p s).source_subject = p.source_subject) ∧
    ((mergeLegs p s).extraction_confidence = p.extraction_confidence) ∧
    ((mergeLegs p s).raw_extraction = p.raw_extraction) := by
  unfold mergeLegs
  split <;> simp_all

/-- C3 (amended): `_merge_pair` never replaces a populated non-location
field of the primary; a location field carrying a city is never touched;
a missing origin/destination is copied from the secondary, and a
present-but-cityless origin/destination is replaced wholesale by the
secondary's location (all components) when the secondary's has a city. -/
theorem mergePair_frame (p s : TravelEvent) :
    ((mergePair p s).event_type = p.event_type) ∧
    (p.start_date ≠ none → (mergePair p s).start_date = p.start_date) ∧
    (p.end_date ≠ none → (mergePair p s).end_date = p.end_date) ∧
    (p.confirmation_number ≠ "" →
      (mergePair p s).confirmation_number = p.confirmation_number) ∧
    (p.provider ≠ "" → (mergePair p s).provider = p.provider) ∧
    (p.property_name ≠ "" → (mergePair p s).property_name = p.property_name) ∧
    (p.activity_name ≠ "" → (mergePair p s).activity_name = p.activity_name) ∧
    (p.legs ≠ [] → (mergePair p s).legs = p.legs) ∧
    ((mergePair p s).traveler_name = p.traveler_name) ∧
    ((mergePair p s).source_email_id = p.source_email_id) ∧
    ((mergePair p s).source_subject = p.source_subject) ∧
    ((mergePair p s).extraction_confidence = p.extraction_confidence) ∧
    ((mergePair p s).raw_extraction = p.raw_extraction) ∧
    (∀ po, p.origin = some po → po.city ≠ "" → (mergePair p s).origin = some po) ∧
    (∀ po so, p.origin = some po → po.city = "" → s.origin = some so →
      so.city ≠ "" → (mergePair p s).origin = some so) ∧
    (p.origin = none → (mergePair p s).origin = s.origin) ∧
    (∀ pd, p.destination = some pd → pd.city ≠ "" →
      (mergePair p s).destination = some pd) ∧
    (∀ pd sd, p.destination = some pd → pd.city = "" → s.destination = some sd →
      sd.city ≠ "" → (mergePair p s).destination = some sd) ∧
    (p.destination = none → (mergePair p s).destination = s.destination) := by
  refine ⟨by simp [mergePair], ?_, ?_, ?_, ?_, ?_, ?_, ?_,
    by simp [mergePair], by simp [mergePair], by simp [mergePair],
    by simp [mergePair], by simp [mergePair], ?_, ?_, ?_, ?_, ?_, ?_⟩
  · intro h
    rcases hp : p.start_date with _ | a
    · exact absurd hp h
    · simp [mergePair, hp, Option.orElse]
  · intro h
    rcases hp : p.end_date with _ | a
    · exact absurd hp h
    · simp [mergePair, hp, Option.orElse]
  · intro h
    simp [mergePair, h]
  · intro h
    simp [mergePair, h]
  · intro h
    simp [mergePair, h]
  · intro h
    simp [mergePair, h]
  · intro h
    simp [mergePair, h]
  · intro po hpo hcity
    rcases hs : s.origin with _ | so <;> simp [mergePair, hpo, hs, hcity]
  · intro po so hpo hcity hso hsocity
    simp [mergePair, hpo, hso, hcity, hsocity]
  · intro hpo
    rcases hs : s.origin with _ | so <;> simp [mergePair, hpo, hs]
  · intro pd hpd hcity
    rcases hs : s.destination with _ | sd <;> simp [mergePair, hpd, hs, hcity]
  · intro pd sd hpd hcity hsd hsdcity
    simp [mergePair, hpd, hsd, hcity, hsdcity]
  · intro hpd
    rcases hs : s.destination with _ | sd <;> simp [mergePair, hpd, hs]

/-- A primary event whose origin is present but cityless, carrying audit
data in `raw`. -/
def citylessPrimary : TravelEvent :=
  { event_type := .FLIGHT, origin := some { city := "", raw := "BCN airport" } }

/-- A secondary event whose origin has a resolved city and nothing else. -/
def citySecondary : TravelEvent :=
  { event_type := .FLIGHT, origin := some { city := "barcelona" } }

/-- Counterexample for C3 as stated: merging is not component-wise on a
present-but-cityless origin — the secondary's whole Location replaces it,
so the primary's populated `raw` component is lost, not merely a city
gained. -/
theorem mergePair_componentwise_counterexample :
    citylessPrimary.origin =
      some { city := "", raw := "BCN airport", iata := "", country := "" } ∧
    (mergePair citylessPrimary citySecondary).origin =
      some { city := "barcelona", raw := "", iata := "", country := "" } ∧
    ¬ ((mergePair citylessPrimary citySecondary).origin.map Location.raw =
        citylessPrimary.origin.map Location.raw) := by
  refine ⟨rfl, by decide, by decide⟩

/-- A fully-populated primary, for exercising the frame theorem. -/
def fullPrimary : TravelEvent :=
  { event_type := .HOTEL, start_date := some 5, end_date := some 9,
    origin := some { city := "x" }, destination := some { city := "y" },
    confirmation_number := "c1", provider := "pr", property_name := "pn",
    activity_name := "an",
    legs := [{ origin := { city := "a" }, destination := { city := "b" } }] }

/-- A fully-populated secondary that must not overwrite `fullPrimary`. -/
def fullSecondary : TravelEvent :=
  { event_type := .HOTEL, start_date := some 50, end_date := some 90,
    origin := some { city := "xx" }, destination := some { city := "yy" },
    confirmation_number := "c2", provider := "qr", property_name := "qn",
    activity_name := "bn",
    legs := [{ origin := { city := "c" }, destination := { city := "d" } }] }

/-- Witness for C3 on fully-populated concrete events. -/
theorem mergePair_frame_witness :
    (mergePair fullPrimary fullSecondary).start_date = fullPrimary.start_date ∧
    (mergePair fullPrimary fullSecondary).end_date = fullPrimary.end_date ∧
    (mergePair fullPrimary fullSecondary).confirmation_number =
      fullPrimary.confirmation_number ∧
    (mergePair fullPrimary fullSecondary).provider = fullPrimary.provider ∧
    (mergePair fullPrimary fullSecondary).property_name = fullPrimary.property_name ∧
    (mergePair fullPrimary fullSecondary).activity_name = fullPrimary.activity_name ∧
    (mergePair fullPrimary fullSecondary).legs = fullPrimary.legs ∧
    (mergePair fullPrimary fullSecondary).origin = some { city := "x" } ∧
    (mergePair fullPrimary fullSecondary).destination = some { city := "y" } := by
  obtain ⟨-, h2, h3, h4, h5, h6, h7, h8, -, -, -, -, -, h14, -, -, h17, -, -⟩ :=
    mergePair_frame fullPrimary fullSecondary
  exact ⟨h2 (by decide), h3 (by decide), h4 (by decide), h5 (by decide),
    h6 (by decide), h7 (by decide), h8 (by decide),
    h14 _ rfl (by decide), h17 _ rfl (by decide)⟩

/-- The merge condition of C4 as amended: same city (case-insensitive),
and either at least one of the two boundary dates is undeterminable or
the gap is at most one day. -/
def amendedMergeCond (A B : CityVisit) : Bool :=
  (strLower A.city == strLower B.city) &&
    (match A.exit_date.orElse (fun _ => A.enter_date),
           B.enter_date.orElse (fun _ => B.exit_date) with
     | some a, some b => decide (b - a ≤ 1)
     | _, _ => true)

/-- The merge condition exactly as C4 words it: merge only when neither
visit has a determinable boundary date, or the gap is at most one day. -/
def claimMergeCond (A B : CityVisit) : Bool :=
  (strLower A.city == strLower B.city) &&
    (match A.exit_date.orElse (fun _ => A.enter_date),
           B.enter_date.orElse (fun _ => B.exit_date) with
     | none, none => true
     | some a, some b => decide (b - a ≤ 1)
     | _, _ => false)

/-- C4 (amended): the merger fuses a consecutive pair exactly when the
cities agree case-insensitively and either boundary date is missing or
the gap is at most one day. -/
theorem mergeConsecutive_pair_condition (A B : CityVisit) :
    (mergeConsecutiveVisits [A, B]).length = 1 ↔ amendedMergeCond A B = true := by
  have hEq : shouldMerge A B = amendedMergeCond A B := rfl
  by_cases h : shouldMerge A B = true
  · simp [mergeConsecutiveVisits, mergeAux, h, ← hEq]
  · simp [mergeConsecutiveVisits, mergeAux, h, ← hEq]

/-- A visit with both dates, same city as `datelessVisit`. -/
def datedVisit : CityVisit := { city := "x", enter_date := some 0, exit_date := some 5 }

/-- A visit with no dates at all. -/
def datelessVisit : CityVisit := { city := "x" }

/-- Counterexample for C4 as stated: the code merges a dated visit with a
following dateless one (`gap_days is None` because one side is missing),
although the claim's condition — "neither has a determinable boundary
date" — is false there. -/
theorem mergeCond_claim_counterexample :
    claimMergeCond datedVisit datelessVisit = false ∧
    (mergeConsecutiveVisits [datedVisit, datelessVisit]).length = 1 := by
  exact ⟨by decide, by decide⟩

/-- C5 (amended): a HOTEL event with a destination city yields, with both
dates set, exactly one ENTER at check-in, one EXIT at check-out and one
PRESENT for each date `d` with `start ≤ d < end`; with only a start date,
an ENTER plus a single PRESENT on that date; with only an end date, just
the EXIT and no PRESENT. -/
theorem signalsFromHotel_spec (ev : TravelEvent) (dst : Location)
    (hdst : ev.destination = some dst) (hcity : dst.city ≠ "") :
    (∀ s e, ev.start_date = some s → ev.end_date = some e →
      signalsFromHotel ev =
        { signal_type := .ENTER, city := dst.city, dt := s,
          strength := mkRat 8 10, source_event := some ev,
          method := "hotel_checkin" } ::
        { signal_type := .EXIT, city := dst.city, dt := e,
          strength := mkRat 8 10, source_event := some ev,
          method := "hotel_checkout" } ::
        ((List.range (e - s).toNat).map (fun i : Nat => s + (i : Int))).map (fun d =>
          { signal_type := .PRESENT, city := dst.city, dt := d,
            strength := mkRat 9 10, source_event := some ev,
            method := "hotel_stay" }) ∧
      ((List.range (e - s).toNat).map (fun i : Nat => s + (i : Int))).Nodup ∧
      (∀ d : Int,
        d ∈ (List.range (e - s).toNat).map (fun i : Nat => s + (i : Int)) ↔
          s ≤ d ∧ d < e)) ∧
    (∀ s, ev.start_date = some s → ev.end_date = none →
      signalsFromHotel ev =
        [{ signal_type := .ENTER, city := dst.city, dt := s,
           strength := mkRat 8 10, source_event := some ev,
           method := "hotel_checkin" },
         { signal_type := .PRESENT, city := dst.city, dt := s,
           strength := mkRat 9 10, source_event := some ev,
           method := "hotel_stay" }]) ∧
    (∀ e, ev.start_date = none → ev.end_date = some e →
      signalsFromHotel ev =
        [{ signal_type := .EXIT, city := dst.city, dt := e,
           strength := mkRat 8 10, source_event := some ev,
           method := "hotel_checkout" }]) := by
  refine ⟨?_, ?_, ?_⟩
  · intro s e hs he
    refine ⟨?_, ?_, ?_⟩
    · simp [signalsFromHotel, hdst, hcity, hs, he, List.map_map, Function.comp]
    · refine List.Nodup.map ?_ (List.nodup_range _)
      intro i j hij
      simp only [add_right_inj, Nat.cast_inj] at hij
      exact hij
    · intro d
      simp only [List.mem_map, List.mem_range]
      constructor
      · rintro ⟨i, hi, rfl⟩
        omega
      · rintro ⟨h1, h2⟩
        exact ⟨(d - s).toNat, by omega, by omega⟩
  · intro s hs he
    simp [signalsFromHotel, hdst, hcity, hs, he]
  · intro e hs he
    simp [signalsFromHotel, hdst, hcity, hs, he]

/-- The spec's example hotel: Barcelona, 2024-03-01 → 2024-03-04
(day ordinals 738946 → 738949). -/
def exampleHotel : TravelEvent :=
  { event_type := .HOTEL, start_date := some 738946, end_date := some 738949,
    destination := some { city := "Barcelona" } }

/-- Witness for C5: the example hotel produces ENTER(03-01),
PRESENT(03-01), PRESENT(03-02), PRESENT(03-03), EXIT(03-04) — as a
permutation, since the generator emits ENTER, EXIT, then the PRESENTs. -/
theorem signalsFromHotel_spec_witness :
    (signalsFromHotel exampleHotel =
      { signal_type := .ENTER, city := "Barcelona", dt := 738946,
        strength := mkRat 8 10, source_event := some exampleHotel,
        method := "hotel_checkin" } ::
      { signal_type := .EXIT, city := "Barcelona", dt := 738949,
        strength := mkRat 8 10, source_event := some exampleHotel,
        method := "hotel_checkout" } ::
      ((List.range ((738949 : Int) - 738946).toNat).map
         (fun i : Nat => (738946 : Int) + (i : Int))).map (fun d =>
        { signal_type := .PRESENT, city := "Barcelona", dt := d,
          strength := mkRat 9 10, source_event := some exampleHotel,
          method := "hotel_stay" })) ∧
    (signalsFromHotel exampleHotel).Perm
      [{ signal_type := .ENTER, city := "Barcelona", dt := 738946,
         strength := mkRat 8 10, source_event := some exampleHotel,
         method := "hotel_checkin" },
       { signal_type := .PRESENT, city := "Barcelona", dt := 738946,
         strength := mkRat 9 10, source_event := some exampleHotel,
         method := "hotel_stay" },
       { signal_type := .PRESENT, city := "Barcelona", dt := 738947,
         strength := mkRat 9 10, source_event := some exampleHotel,
         method := "hotel_stay" },
       { signal_type := .PRESENT, city := "Barcelona", dt := 738948,
         strength := mkRat 9 10, source_event := some exampleHotel,
         method := "hotel_stay" },
       { signal_type := .EXIT, city := "Barcelona", dt := 738949,
         strength := mkRat 8 10, source_event := some exampleHotel,
         method := "hotel_checkout" }] :=
  ⟨((signalsFromHotel_spec exampleHotel { city := "Barcelona" } rfl
      (by decide)).1 738946 738949 rfl rfl).1, by decide⟩

/-- A hotel event where only the check-out date is known. -/
def endOnlyHotel : TravelEvent :=
  { event_type := .HOTEL, end_date := some 100,
    destination := some { city := "x" } }

/-- Counterexample for C5 as stated: with only one (the end) date known,
the generator emits no PRESENT at all — only the EXIT — rather than "a
single PRESENT on that date". -/
theorem signalsFromHotel_oneDate_counterexample :
    endOnlyHotel.start_date = none ∧ endOnlyHotel.end_date = some 100 ∧
    (signalsFromHotel endOnlyHotel).filter
      (fun s => s.signal_type == SignalType.PRESENT) = [] ∧
    signalsFromHotel endOnlyHotel =
      [{ signal_type := .EXIT, city := "x", dt := 100, strength := mkRat 8 10,
         source_event := some endOnlyHotel, method := "hotel_checkout" }] := by
  exact ⟨rfl, rfl, by decide, by decide⟩

/-- C7: in the open-visit state, a PRESENT signal for a different city
closes the current visit (inferring its exit when it had none) and opens
a new visit at the signal's city and date exactly when the signal's
strength is at least 0.7; a weaker PRESENT leaves the state unchanged. -/
theorem assembleStep_present_override (st : AsmState) (c : CityVisit)
    (sig : CitySignal) (hc : st.current = some c)
    (ht : sig.signal_type = .PRESENT)
    (hcity : strLower c.city ≠ strLower sig.city) :
    (mkRat 7 10 ≤ sig.strength →
      assembleStep st sig =
        { visits := st.visits ++
            [if c.exit_date = none then
               { c with
                 exit_date := some sig.dt,
                 exit_method := "inferred_from_presence_elsewhere",
                 notes := c.notes ++
                   ["Exit inferred from presence in " ++ sig.city] }
             else c],
          current := some
            { city := sig.city,
              enter_date := some sig.dt,
              enter_method := sig.method,
              supporting_events :=
                match sig.source_event with
                | some ev => [ev]
                | none => [] } }) ∧
    (sig.strength < mkRat 7 10 → assembleStep st sig = st) := by
  constructor
  · intro hstr
    rcases hsrc : sig.source_event with _ | ev <;>
      simp [assembleStep, ht, hc, hcity, hstr, hsrc]
  · intro hstr
    simp [assembleStep, ht, hc, hcity, not_le.mpr hstr]

/-- An assembler state with an open visit in city "x". -/
def openState : AsmState :=
  { visits := [], current := some { city := "x", enter_date := some 10 } }

/-- A strength-0.7 PRESENT signal for a different city. -/
def strongPresent : CitySignal :=
  { signal_type := .PRESENT, city := "y", dt := 12, strength := mkRat 7 10,
    method := "tour_activity" }

/-- A strength-0.5 PRESENT signal for a different city. -/
def weakPresent : CitySignal :=
  { signal_type := .PRESENT, city := "y", dt := 12, strength := mkRat 5 10,
    method := "car_rental_pickup" }

/-- Witness for C7: the strong PRESENT overrides the open visit, the weak
one is ignored. -/
theorem assembleStep_present_override_witness :
    (assembleStep openState strongPresent =
      { visits := [{ city := "x",
                     enter_date := some 10,
                     exit_date := some 12,
                     exit_method := "inferred_from_presence_elsewhere",
                     notes := ["Exit inferred from presence in y"] }],
        current := some { city := "y",
                          enter_date := some 12,
                          enter_method := "tour_activity" } }) ∧
    assembleStep openState weakPresent = openState :=
  ⟨(assembleStep_present_override openState _ strongPresent rfl rfl
      (by decide)).1 (by decide),
   (assembleStep_present_override openState _ weakPresent rfl rfl
      (by decide)).2 (by decide)⟩

/-! Insertion-only union preserves distinctness. -/

lemma foldl_insert_nodup (l : List TravelEvent) :
    ∀ acc : List TravelEvent, acc.Nodup →
      (l.foldl (fun l ev => if ev ∈ l then l else l ++ [ev]) acc).Nodup := by
  induction l with
  | nil => intro acc h; simpa using h
  | cons ev rest ih =>
    intro acc h
    rw [List.foldl_cons]
    by_cases hev : ev ∈ acc
    · rw [if_pos hev]
      exact ih acc h
    · rw [if_neg hev]
      refine ih _ ?_
      simpa [List.nodup_append] using ⟨h, hev⟩

lemma mergeInto_supporting (c n : CityVisit) :
    (mergeInto c n).supporting_events =
      n.supporting_events.foldl
        (fun l ev => if ev ∈ l then l else l ++ [ev]) c.supporting_events := by
  unfold mergeInto
  rcases h1 : n.enter_date <;> rcases h2 : c.enter_date <;>
    rcases h3 : n.exit_date <;>
      simp [h1, h2, h3] <;>
        (repeat' split) <;> rfl

lemma finalizeVisit_supporting (v : CityVisit) :
    (finalizeVisit v).supporting_events = v.supporting_events := rfl

/-- C2 (amended): the merger never introduces duplicate supporting
events — if every input visit's `supporting_events` is duplicate-free,
so is every output visit's.  (The assembler itself can emit duplicates;
see the counterexample.) -/
theorem mergeConsecutiveVisits_nodup (visits : List CityVisit)
    (h : ∀ v ∈ visits, v.supporting_events.Nodup) :
    ∀ v ∈ mergeConsecutiveVisits visits, v.supporting_events.Nodup := by
  have aux : ∀ (rest : List CityVisit) (c : CityVisit),
      c.supporting_events.Nodup →
      (∀ v ∈ rest, v.supporting_events.Nodup) →
      ∀ v ∈ mergeAux c rest, v.supporting_events.Nodup := by
    intro rest
    induction rest with
    | nil =>
      intro c hc _ v hv
      rw [mergeAux] at hv
      simp at hv
      subst hv
      rw [finalizeVisit_supporting]
      exact hc
    | cons nxt rest ih =>
      intro c hc hrest v hv
      rw [mergeAux] at hv
      split at hv
      · refine ih _ ?_ (fun w hw => hrest w (List.mem_cons_of_mem _ hw)) v hv
        rw [mergeInto_supporting]
        exact foldl_insert_nodup _ _ hc
      · rcases List.mem_cons.mp hv with rfl | hv
        · rw [finalizeVisit_supporting]
          exact hc
        · exact ih _ (hrest _ (List.mem_cons_self _ _))
            (fun w hw => hrest w (List.mem_cons_of_mem _ hw)) v hv
  intro v hv
  match visits, hv with
  | w :: rest, hv =>
    exact aux rest w (h w (List.mem_cons_self _ _))
      (fun u hu => h u (List.mem_cons_of_mem _ hu)) v hv

/-- Witness for C2 on two duplicate-free visits that the merger fuses. -/
theorem mergeConsecutiveVisits_nodup_witness :
    (∀ v ∈ [datedVisit, datelessVisit], v.supporting_events.Nodup) ∧
    (∀ v ∈ mergeConsecutiveVisits [datedVisit, datelessVisit],
      v.supporting_events.Nodup) :=
  ⟨by decide, mergeConsecutiveVisits_nodup [datedVisit, datelessVisit] (by decide)⟩

/-- The hotel event of the C2 counterexample. -/
def dupHotel : TravelEvent :=
  { event_type := .HOTEL, start_date := some 738946, end_date := some 738949,
    destination := some { city := "x" } }

/-- Counterexample for C2 as stated: the assembler's same-city EXIT
transition appends the source event unconditionally, so one hotel event
yields a visit whose `supporting_events` lists that event twice. -/
theorem assembleVisits_dup_counterexample :
    ¬ (∀ v ∈ assembleVisits (eventsToSignals [dupHotel]),
        v.supporting_events.Nodup) := by
  decide

/-! Confidence scores form a bounded two-decimal grid. -/

lemma scoreConfidence_range (v : CityVisit) :
    ∃ n : ℕ, 40 ≤ n ∧ n ≤ 100 ∧ scoreConfidence v = mkRat n 100 := by
  simp only [scoreConfidence]
  repeat' split
  all_goals
    first
    | exact ⟨100, by omega, by omega, by decide⟩
    | exact ⟨90, by omega, by omega, by decide⟩
    | exact ⟨80, by omega, by omega, by decide⟩
    | exact ⟨70, by omega, by omega, by decide⟩
    | exact ⟨60, by omega, by omega, by decide⟩
    | exact ⟨50, by omega, by omega, by decide⟩
    | exact ⟨40, by omega, by omega, by decide⟩

lemma finalizeVisit_confidence (v : CityVisit) :
    (finalizeVisit v).confidence =
      scoreConfidence { v with accommodations := dedupAccommodations v.accommodations } :=
  rfl

lemma mergeAux_finalized (rest : List CityVisit) :
    ∀ (c : CityVisit) (v : CityVisit), v ∈ mergeAux c rest →
      ∃ w, v = finalizeVisit w := by
  induction rest with
  | nil =>
    intro c v hv
    rw [mergeAux] at hv
    simp at hv
    exact ⟨c, hv⟩
  | cons nxt rest ih =>
    intro c v hv
    rw [mergeAux] at hv
    split at hv
    · exact ih _ v hv
    · rcases List.mem_cons.mp hv with rfl | hv
      · exact ⟨c, rfl⟩
      · exact ih _ v hv

/-- C10: every visit returned by `build_timeline` carries a confidence on
the two-decimal grid between 0.4 and 1.0 inclusive — every finalized
visit is scored, the base is at least 0.4, and the bonuses are capped at
1.0. -/
theorem buildTimeline_confidence (events : List TravelEvent) (v : CityVisit)
    (hv : v ∈ buildTimeline events) :
    mkRat 4 10 ≤ v.confidence ∧ v.confidence ≤ 1 ∧
    ∃ n : ℕ, 40 ≤ n ∧ n ≤ 100 ∧ v.confidence = mkRat n 100 := by
  have hfin : ∃ w, v = finalizeVisit w := by
    unfold buildTimeline at hv
    rcases hva : assembleVisits (eventsToSignals events) with _ | ⟨w, rest⟩
    · rw [hva] at hv
      simp [mergeConsecutiveVisits] at hv
    · rw [hva] at hv
      exact mergeAux_finalized rest w v hv
  rcases hfin with ⟨w, rfl⟩
  rw [finalizeVisit_confidence]
  rcases scoreConfidence_range
      { w with accommodations := dedupAccommodations w.accommodations } with
    ⟨n, hn1, hn2, heq⟩
  rw [heq]
  have h100 : mkRat (n : Int) 100 = (n : ℚ) / 100 := by
    rw [Rat.mkRat_eq_div]; push_cast; ring
  have h40 : mkRat 4 10 = (40 : ℚ) / 100 := by
    rw [Rat.mkRat_eq_div]; norm_num
  refine ⟨?_, ?_, n, hn1, hn2, rfl⟩
  · rw [h100, h40]
    have hc : (40 : ℚ) ≤ (n : ℚ) := by exact_mod_cast hn1
    linarith
  · rw [h100]
    have hc : (n : ℚ) ≤ (100 : ℚ) := by exact_mod_cast hn2
    linarith

/-- The single merged visit `build_timeline` makes of `dupHotel`. -/
def dupHotelVisit : CityVisit :=
  (buildTimeline [dupHotel]).getD 0 { city := "" }

/-- Witness for C10 on a concrete one-hotel timeline. -/
theorem buildTimeline_confidence_witness :
    dupHotelVisit ∈ buildTimeline [dupHotel] ∧
    (mkRat 4 10 ≤ dupHotelVisit.confidence ∧ dupHotelVisit.confidence ≤ 1 ∧
      ∃ n : ℕ, 40 ≤ n ∧ n ≤ 100 ∧ dupHotelVisit.confidence = mkRat n 100) :=
  ⟨by decide, buildTimeline_confidence [dupHotel] dupHotelVisit (by decide)⟩

/-! The assembler's visit-date invariant. -/

lemma sortSignals_dt_mono (signals : List CitySignal) :
    (sortSignals signals).Pairwise (fun a b => a.dt ≤ b.dt) := by
  refine (List.sorted_insertionSort sigLE signals).imp ?_
  intro a b hab
  unfold sigLE at hab
  omega

lemma assembleFold_inv (l : List CitySignal) :
    ∀ st : AsmState,
      l.Pairwise (fun a b => a.dt ≤ b.dt) →
      (∀ v ∈ st.visits, ∀ e x : Int,
        v.enter_date = some e → v.exit_date = some x → e ≤ x) →
      (∀ c, st.current = some c → c.exit_date = none ∧
        (∀ e, c.enter_date = some e → ∀ s ∈ l, e ≤ s.dt)) →
      (∀ v ∈ (l.foldl assembleStep st).visits, ∀ e x : Int,
        v.enter_date = some e → v.exit_date = some x → e ≤ x) ∧
      (∀ c, (l.foldl assembleStep st).current = some c →
        c.exit_date = none) := by
  induction l with
  | nil =>
    intro st _ hvis hcur
    exact ⟨hvis, fun c hc => (hcur c hc).1⟩
  | cons s rest ih =>
    intro st hl hvis hcur
    obtain ⟨hhead, htail⟩ := List.pairwise_cons.mp hl
    rw [List.foldl_cons]
    refine ih (assembleStep st s) htail ?_ ?_
    · -- visits of the stepped state satisfy the invariant
      intro v hv e x he hx
      rcases hty : s.signal_type with _ | _ | _ <;>
        rcases hc : st.current with _ | c
      · -- ENTER, no open visit
        simp [assembleStep, hty, hc] at hv
        exact hvis v hv e x he hx
      · -- ENTER, open visit: previous visit is closed at s.dt
        obtain ⟨hcx, hbound⟩ := hcur c hc
        simp [assembleStep, hty, hc, hcx] at hv
        rcases hv with hv | rfl
        · exact hvis v hv e x he hx
        · simp at he hx
          subst hx
          exact hbound e he s (List.mem_cons_self _ _)
      · -- EXIT, no open visit: departure-only visit, no enter date
        simp [assembleStep, hty, hc] at hv
        rcases hsrc : s.source_event with _ | ev <;> rw [hsrc] at hv <;>
          simp at hv <;> rcases hv with hv | rfl
        · exact hvis v hv e x he hx
        · simp at he
        · exact hvis v hv e x he hx
        · simp at he
      · -- EXIT, open visit (same or different city)
        obtain ⟨hcx, hbound⟩ := hcur c hc
        by_cases hsame : strLower c.city = strLower s.city
        · rcases hsrc : s.source_event with _ | ev <;>
            simp [assembleStep, hty, hc, hsame, hsrc] at hv <;>
              rcases hv with hv | rfl
          · exact hvis v hv e x he hx
          · simp at he hx
            subst hx
            exact hbound e he s (List.mem_cons_self _ _)
          · exact hvis v hv e x he hx
          · simp at he hx
            subst hx
            exact hbound e he s (List.mem_cons_self _ _)
        · simp [assembleStep, hty, hc, hsame, hcx] at hv
          rcases hv with hv | rfl
          · exact hvis v hv e x he hx
          · simp at he hx
            subst hx
            exact hbound e he s (List.mem_cons_self _ _)
      · -- PRESENT, no open visit
        simp [assembleStep, hty, hc] at hv
        exact hvis v hv e x he hx
      · -- PRESENT, open visit
        obtain ⟨hcx, hbound⟩ := hcur c hc
        by_cases hsame : strLower c.city = strLower s.city
        · simp [assembleStep, hty, hc, hsame] at hv
          exact hvis v hv e x he hx
        · by_cases hstr : mkRat 7 10 ≤ s.strength
          · simp [assembleStep, hty, hc, hsame, hstr, hcx] at hv
            rcases hv with hv | rfl
            · exact hvis v hv e x he hx
            · simp at he hx
              subst hx
              exact hbound e he s (List.mem_cons_self _ _)
          · simp [assembleStep, hty, hc, hsame, hstr] at hv
            exact hvis v hv e x he hx
    · -- the stepped current visit: exit unset, enter below the rest
      intro c' hc'
      rcases hty : s.signal_type with _ | _ | _ <;>
        rcases hc : st.current with _ | c
      · -- ENTER, no open visit
        rcases hsrc : s.source_event with _ | ev <;>
          simp [assembleStep, hty, hc, hsrc] at hc' <;> subst hc' <;>
            exact ⟨rfl, fun e he b hb => by simp at he; subst he; exact hhead b hb⟩
      · -- ENTER, open visit
        obtain ⟨hcx, hbound⟩ := hcur c hc
        rcases hsrc : s.source_event with _ | ev <;>
          simp [assembleStep, hty, hc, hsrc] at hc' <;> subst hc' <;>
            exact ⟨rfl, fun e he b hb => by simp at he; subst he; exact hhead b hb⟩
      · -- EXIT, no open visit: current stays none
        simp [assembleStep, hty, hc] at hc'
      · -- EXIT, open visit: current becomes none
        by_cases hsame : strLower c.city = strLower s.city <;>
          simp [assembleStep, hty, hc, hsame] at hc'
      · -- PRESENT, no open visit
        rcases hsrc : s.source_event with _ | ev <;>
          simp [assembleStep, hty, hc, hsrc] at hc' <;> subst hc' <;>
            exact ⟨rfl, fun e he b hb => by simp at he; subst he; exact hhead b hb⟩
      · -- PRESENT, open visit
        obtain ⟨hcx, hbound⟩ := hcur c hc
        by_cases hsame : strLower c.city = strLower s.city
        · rcases hsrc : s.source_event with _ | ev <;>
            simp [assembleStep, hty, hc, hsame, hsrc] at hc'
          · subst hc'
            exact ⟨hcx, fun e he b hb =>
              hbound e he b (List.mem_cons_of_mem _ hb)⟩
          · split at hc' <;> subst hc' <;>
              exact ⟨hcx, fun e he b hb =>
                hbound e he b (List.mem_cons_of_mem _ hb)⟩
        · by_cases hstr : mkRat 7 10 ≤ s.strength
          · rcases hsrc : s.source_event with _ | ev <;>
              simp [assembleStep, hty, hc, hsame, hstr, hsrc] at hc' <;>
                subst hc' <;>
                  exact ⟨rfl, fun e he b hb => by
                    simp at he; subst he; exact hhead b hb⟩
          · simp [assembleStep, hty, hc, hsame, hstr] at hc'
            subst hc'
            exact ⟨hcx, fun e he b hb =>
              hbound e he b (List.mem_cons_of_mem _ hb)⟩

/-- C1 (amended): every visit emitted by the assembler satisfies the
date invariant — when both dates are set, `enter_date ≤ exit_date`.
(The merger does not preserve it; see the counterexample.) -/
theorem assembleVisits_enter_le_exit (signals : List CitySignal)
    (v : CityVisit) (hv : v ∈ assembleVisits signals) (e x : Int)
    (he : v.enter_date = some e) (hx : v.exit_date = some x) : e ≤ x := by
  unfold assembleVisits at hv
  by_cases h0 : signals = []
  · rw [if_pos h0] at hv
    simp at hv
  · rw [if_neg h0] at hv
    have hinv := assembleFold_inv (sortSignals signals)
      { visits := [], current := none } (sortSignals_dt_mono signals)
      (by simp) (by simp)
    simp only at hv
    rcases hcur : ((sortSignals signals).foldl assembleStep
        { visits := [], current := none }).current with _ | c
    · rw [hcur] at hv
      rcases List.mem_map.mp hv with ⟨w, hw, rfl⟩
      exact hinv.1 w hw e x he hx
    · rw [hcur] at hv
      rcases List.mem_map.mp hv with ⟨w, hw, rfl⟩
      rcases List.mem_append.mp hw with hw | hw
      · exact hinv.1 w hw e x he hx
      · have hcx : c.exit_date = none := hinv.2 c hcur
        simp at hw
        subst hw
        have : (postVisit (closeFinal c)).exit_date = none := by
          simp [postVisit, closeFinal, hcx]
        rw [hx] at this
        cases this

/-- A flight leaving city "x" on day 3, destination unresolved. -/
def departFlight : TravelEvent :=
  { event_type := .FLIGHT, origin := some { city := "x" }, start_date := some 3 }

/-- A flight arriving in city "x" on day 4, origin unresolved. -/
def arriveFlight : TravelEvent :=
  { event_type := .FLIGHT, destination := some { city := "x" }, end_date := some 4 }

/-- Counterexample for C1 as stated: after `merge_consecutive_visits`
fuses the departure-only visit (exit day 3) with the following open
visit (enter day 4), the pipeline emits a visit with
`enter_date = 4 > exit_date = 3`. -/
theorem buildTimeline_enter_gt_exit_counterexample :
    ∃ v ∈ buildTimeline [departFlight, arriveFlight],
      v.enter_date = some 4 ∧ v.exit_date = some 3 ∧ ¬ ((4 : Int) ≤ 3) := by
  decide

/-- Two clean signals: an arrival in "x" on day 1 and a departure on day 2. -/
def plainSignals : List CitySignal :=
  [{ signal_type := .ENTER, city := "x", dt := 1, strength := 1,
     method := "flight_arrival" },
   { signal_type := .EXIT, city := "x", dt := 2, strength := 1,
     method := "flight_departure" }]

/-- The visit the assembler makes of `plainSignals`. -/
def plainVisit : CityVisit :=
  (assembleVisits plainSignals).getD 0 { city := "" }

/-- Witness for C1 on a concrete assembled visit. -/
theorem assembleVisits_enter_le_exit_witness :
    plainVisit ∈ assembleVisits plainSignals ∧
    plainVisit.enter_date = some 1 ∧ plainVisit.exit_date = some 2 ∧
    (1 : Int) ≤ 2 :=
  ⟨by decide, by decide, by decide,
   assembleVisits_enter_le_exit plainSignals plainVisit (by decide) 1 2
     (by decide) (by decide)⟩
